import Mathlib

/-!
Verification development for a small read-only zoo web API
(three entities — Animal, Zookeeper, Enclosure — with relationship-aware
nested serialization).  The data model and the rendering functions below
are a shallow embedding of server/models.py and server/app.py.
-/

namespace ZooApp

/-- A calendar date, the storage type of the Zookeeper birthday column
(db.Column(db.Date)). -/
structure Date where
  year : Nat
  month : Nat
  day : Nat
deriving Repr, DecidableEq

/-- The animals table: id (integer primary key), name (unique string),
species (string), and two nullable foreign keys zookeeper_id and
enclosure_id. -/
structure Animal where
  id : Int
  name : String
  species : String
  zookeeper_id : Option Int
  enclosure_id : Option Int
deriving Repr, DecidableEq

/-- The zookeepers table: id (integer primary key), name (unique string),
birthday (date). -/
structure Zookeeper where
  id : Int
  name : String
  birthday : Date
deriving Repr, DecidableEq

/-- The enclosures table: id (integer primary key), environment (string),
open_to_visitors (boolean). -/
structure Enclosure where
  id : Int
  environment : String
  open_to_visitors : Bool
deriving Repr, DecidableEq

/-- The relational store backing the app: the three tables. -/
structure DB where
  animals : List Animal
  zookeepers : List Zookeeper
  enclosures : List Enclosure
deriving Repr, DecidableEq

/-- JSON-like values: the output domain of schema dumping and of the
response bodies. -/
inductive Value where
  | null : Value
  | int : Int → Value
  | str : String → Value
  | bool : Bool → Value
  | list : List Value → Value
  | obj : List (String × Value) → Value
deriving Repr

/-- Look a key up in an object value (none on non-objects and missing keys). -/
def Value.lookup (k : String) : Value → Option Value
  | Value.obj fs => List.lookup k fs
  | _ => none

/-- The keys of an object value, in order (empty for non-objects). -/
def Value.keys : Value → List String
  | Value.obj fs => fs.map Prod.fst
  | _ => []

/-- Relationship navigation for db.relationship(Zookeeper,
back_populates=animals) on Animal: follow the zookeeper_id foreign key. -/
def animalZookeeper (db : DB) (a : Animal) : Option Zookeeper :=
  a.zookeeper_id.bind (fun zid => db.zookeepers.find? (fun z => z.id == zid))

/-- Relationship navigation for db.relationship(Enclosure,
back_populates=animals) on Animal: follow the enclosure_id foreign key. -/
def animalEnclosure (db : DB) (a : Animal) : Option Enclosure :=
  a.enclosure_id.bind (fun eid => db.enclosures.find? (fun e => e.id == eid))

/-- The derived reverse collection Zookeeper.animals (back_populates). -/
def zookeeperAnimals (db : DB) (z : Zookeeper) : List Animal :=
  db.animals.filter (fun a => a.zookeeper_id == some z.id)

/-- The derived reverse collection Enclosure.animals (back_populates). -/
def enclosureAnimals (db : DB) (e : Enclosure) : List Animal :=
  db.animals.filter (fun a => a.enclosure_id == some e.id)

/-- Two-digit zero padding for date components. -/
def pad2 (n : Nat) : String :=
  if n < 10 then "0" ++ toString n else toString n

/-- Four-digit zero padding for the year. -/
def pad4 (n : Nat) : String :=
  if n < 10 then "000" ++ toString n
  else if n < 100 then "00" ++ toString n
  else if n < 1000 then "0" ++ toString n
  else toString n

/-- ISO formatting of a stored date, as produced by the DateTime field of
ZookeeperSchema serializing the date column (isoformat). -/
def dateISO (d : Date) : String :=
  pad4 d.year ++ "-" ++ pad2 d.month ++ "-" ++ pad2 d.day

/-- Dump of ZookeeperSchema(exclude animals): the nested zookeeper schema
used inside AnimalSchema.  Fields in declaration order, minus the excluded
animals field. -/
def dumpZookeeperNoAnimals (z : Zookeeper) : Value :=
  Value.obj
    [("id", Value.int z.id), ("name", Value.str z.name),
     ("birthday", Value.str (dateISO z.birthday))]

/-- Dump of EnclosureSchema(exclude animals): the nested enclosure schema
used inside AnimalSchema. -/
def dumpEnclosureNoAnimals (e : Enclosure) : Value :=
  Value.obj
    [("id", Value.int e.id), ("environment", Value.str e.environment),
     ("open_to_visitors", Value.bool e.open_to_visitors)]

/-- Serialization of a Nested field: a missing relationship serializes to
null, a present one to the nested schema dump. -/
def dumpNested {α : Type} (f : α → Value) : Option α → Value
  | none => Value.null
  | some x => f x

/-- Dump of AnimalSchema, parameterized by the exclusions actually used in
the source: exclude=(zookeeper,) inside ZookeeperSchema and
exclude=(enclosure,) inside EnclosureSchema.  Fields in declaration order:
id, name, species, zookeeper (Nested ZookeeperSchema exclude animals),
enclosure (Nested EnclosureSchema exclude animals). -/
def dumpAnimal (db : DB) (exZookeeper exEnclosure : Bool) (a : Animal) : Value :=
  Value.obj
    ([("id", Value.int a.id), ("name", Value.str a.name),
      ("species", Value.str a.species)]
     ++ (if exZookeeper then []
         else [("zookeeper", dumpNested dumpZookeeperNoAnimals (animalZookeeper db a))])
     ++ (if exEnclosure then []
         else [("enclosure", dumpNested dumpEnclosureNoAnimals (animalEnclosure db a))]))

/-- Dump of the full ZookeeperSchema: id, name, birthday, and the animals
list, each element dumped by AnimalSchema(exclude=(zookeeper,)). -/
def dumpZookeeper (db : DB) (z : Zookeeper) : Value :=
  Value.obj
    [("id", Value.int z.id), ("name", Value.str z.name),
     ("birthday", Value.str (dateISO z.birthday)),
     ("animals", Value.list ((zookeeperAnimals db z).map (dumpAnimal db true false)))]

/-- Dump of the full EnclosureSchema: id, environment, open_to_visitors,
and the animals list, each element dumped by
AnimalSchema(exclude=(enclosure,)). -/
def dumpEnclosure (db : DB) (e : Enclosure) : Value :=
  Value.obj
    [("id", Value.int e.id), ("environment", Value.str e.environment),
     ("open_to_visitors", Value.bool e.open_to_visitors),
     ("animals", Value.list ((enclosureAnimals db e).map (dumpAnimal db false true)))]

/-- Schema().dump applied to the result of a query: dumping None (an absent
record) produces the empty mapping, since every field access on None is
missing and missing fields are skipped. -/
def schemaDump {α : Type} (f : α → Value) : Option α → Value
  | none => Value.obj []
  | some x => f x

/-- Animal.query.filter(Animal.id == id).first(): the first stored animal
whose id matches, if any. -/
def animalQueryFirst (db : DB) (i : Int) : Option Animal :=
  db.animals.find? (fun a => a.id == i)

/-- Zookeeper.query.filter(Zookeeper.id == id).first(). -/
def zookeeperQueryFirst (db : DB) (i : Int) : Option Zookeeper :=
  db.zookeepers.find? (fun z => z.id == i)

/-- Enclosure.query.filter(Enclosure.id == id).first(). -/
def enclosureQueryFirst (db : DB) (i : Int) : Option Enclosure :=
  db.enclosures.find? (fun e => e.id == i)

/-- An HTTP response: status and body. -/
structure Response where
  status : Nat
  body : Value
deriving Repr

/-- make_response on a serialized body: default framework behavior, status
200 with the given body. -/
def make_response (v : Value) : Response :=
  { status := 200, body := v }

/-- Handler for GET /animals/(int id): query first by id, dump through
AnimalSchema(), wrap in make_response. -/
def animal_by_id (db : DB) (id : Int) : Response :=
  make_response (schemaDump (dumpAnimal db false false) (animalQueryFirst db id))

/-- Handler for GET /zookeepers/(int id). -/
def zookeeper_by_id (db : DB) (id : Int) : Response :=
  make_response (schemaDump (dumpZookeeper db) (zookeeperQueryFirst db id))

/-- Handler for GET /enclosures/(int id). -/
def enclosure_by_id (db : DB) (id : Int) : Response :=
  make_response (schemaDump (dumpEnclosure db) (enclosureQueryFirst db id))

/-- Handler for GET /: the static greeting body. -/
def index : Value :=
  Value.str "<h1>Zoo app</h1>"

/-- Modelled from the spec: the routing layer's int converter (framework
default behavior, not in the source).  A path segment is accepted as an
integer identifier exactly when it is a nonempty string of decimal digits,
in which case its numeric value is produced. -/
def parseIntSegment (s : String) : Option Nat :=
  if s.length != 0 && s.data.all Char.isDigit then
    some (s.data.foldl (fun n c => n * 10 + (c.toNat - 48)) 0)
  else none

/-- Modelled from the spec: dispatch over the slash-separated segments of
the request path, combining the four registered routes with the framework's
int converter.  A path whose identifier segment is not an integer matches
no route (none, the framework's 404) and no handler runs. -/
def dispatchSegments (db : DB) : List String → Option Response
  | ["", ""] => some (make_response index)
  | ["", "animals", seg] =>
      (parseIntSegment seg).map (fun n => animal_by_id db (Int.ofNat n))
  | ["", "zookeepers", seg] =>
      (parseIntSegment seg).map (fun n => zookeeper_by_id db (Int.ofNat n))
  | ["", "enclosures", seg] =>
      (parseIntSegment seg).map (fun n => enclosure_by_id db (Int.ofNat n))
  | _ => none

/-- Splitting a character list at slashes, accumulating the current
segment in reverse. -/
def splitSlashAux : List Char → List Char → List String
  | [], acc => [String.mk acc.reverse]
  | c :: cs, acc =>
      if c = '/' then String.mk acc.reverse :: splitSlashAux cs []
      else splitSlashAux cs (c :: acc)

/-- The slash-separated segments of a request path (the path /animals/7
has segments an empty string, animals, and 7). -/
def pathSegments (path : String) : List String :=
  splitSlashAux path.data []

/-- Modelled from the spec: dispatch on a raw path string. -/
def dispatch (db : DB) (path : String) : Option Response :=
  dispatchSegments db (pathSegments path)

/-- Mapping an Option-valued function over a list, succeeding only when
every element succeeds (the serialization of a List field). -/
def optionMapList {α β : Type} (f : α → Option β) : List α → Option (List β)
  | [] => some []
  | x :: xs =>
      match f x, optionMapList f xs with
      | some y, some ys => some (y :: ys)
      | _, _ => none

mutual

/-- The schemas as they are written: three mutually referencing dump
functions, each parameterized by which relationship fields to exclude
(AnimalSchema nests ZookeeperSchema(exclude animals) and
EnclosureSchema(exclude animals); ZookeeperSchema nests
AnimalSchema(exclude zookeeper); EnclosureSchema nests
AnimalSchema(exclude enclosure)).  A fuel parameter makes the mutual
recursion manifestly total: none means the recursion depth was exceeded. -/
def dumpAnimalFuel (fuel : Nat) (db : DB) (exZookeeper exEnclosure : Bool)
    (a : Animal) : Option Value :=
  match fuel with
  | 0 => none
  | Nat.succ n =>
      Option.bind
        (if exZookeeper then some []
         else Option.map (fun v => [("zookeeper", v)])
            (match animalZookeeper db a with
             | none => some Value.null
             | some z => dumpZookeeperFuel n db true z))
        (fun zkPart =>
          Option.map
            (fun encPart =>
              Value.obj
                ([("id", Value.int a.id), ("name", Value.str a.name),
                  ("species", Value.str a.species)] ++ zkPart ++ encPart))
            (if exEnclosure then some []
             else Option.map (fun v => [("enclosure", v)])
                (match animalEnclosure db a with
                 | none => some Value.null
                 | some e => dumpEnclosureFuel n db true e)))
termination_by fuel

/-- Fuel-indexed dump of ZookeeperSchema with an animals-exclusion flag. -/
def dumpZookeeperFuel (fuel : Nat) (db : DB) (exAnimals : Bool)
    (z : Zookeeper) : Option Value :=
  match fuel with
  | 0 => none
  | Nat.succ n =>
      Option.map
        (fun animalsPart =>
          Value.obj
            ([("id", Value.int z.id), ("name", Value.str z.name),
              ("birthday", Value.str (dateISO z.birthday))] ++ animalsPart))
        (if exAnimals then some []
         else Option.map (fun vs => [("animals", Value.list vs)])
            (optionMapList (dumpAnimalFuel n db true false) (zookeeperAnimals db z)))
termination_by fuel

/-- Fuel-indexed dump of EnclosureSchema with an animals-exclusion flag. -/
def dumpEnclosureFuel (fuel : Nat) (db : DB) (exAnimals : Bool)
    (e : Enclosure) : Option Value :=
  match fuel with
  | 0 => none
  | Nat.succ n =>
      Option.map
        (fun animalsPart =>
          Value.obj
            ([("id", Value.int e.id), ("environment", Value.str e.environment),
              ("open_to_visitors", Value.bool e.open_to_visitors)] ++ animalsPart))
        (if exAnimals then some []
         else Option.map (fun vs => [("animals", Value.list vs)])
            (optionMapList (dumpAnimalFuel n db false true) (enclosureAnimals db e)))
termination_by fuel

end

/-- A schema field declaration: its name and whether it is dump-only
(serialized on output, never accepted on input). -/
structure FieldDecl where
  name : String
  dumpOnly : Bool
deriving Repr, DecidableEq

/-- The declared fields of AnimalSchema, in order, with their dump-only
flags: only id is dump-only. -/
def animalSchemaFields : List FieldDecl :=
  [{ name := "id", dumpOnly := true }, { name := "name", dumpOnly := false },
   { name := "species", dumpOnly := false },
   { name := "zookeeper", dumpOnly := false },
   { name := "enclosure", dumpOnly := false }]

/-- The declared fields of ZookeeperSchema, in order. -/
def zookeeperSchemaFields : List FieldDecl :=
  [{ name := "id", dumpOnly := true }, { name := "name", dumpOnly := false },
   { name := "birthday", dumpOnly := false },
   { name := "animals", dumpOnly := false }]

/-- The declared fields of EnclosureSchema, in order. -/
def enclosureSchemaFields : List FieldDecl :=
  [{ name := "id", dumpOnly := true },
   { name := "environment", dumpOnly := false },
   { name := "open_to_visitors", dumpOnly := false },
   { name := "animals", dumpOnly := false }]

/-- Modelled from the spec: the names a schema accepts from input when
loading; dump-only fields are never settable via input. -/
def loadableFields (fs : List FieldDecl) : List String :=
  (fs.filter (fun f => !f.dumpOnly)).map FieldDecl.name

/-- Concrete sample store used to witness the theorems: zookeeper Jo (id 2)
keeps Fred the giraffe (id 1) and Lea the lion (id 4); the savanna
enclosure (id 3) holds Fred. -/
def dbZoo : DB :=
  { animals :=
      [{ id := 1, name := "Fred", species := "giraffe",
         zookeeper_id := some 2, enclosure_id := some 3 },
       { id := 4, name := "Lea", species := "lion",
         zookeeper_id := some 2, enclosure_id := none }],
    zookeepers :=
      [{ id := 2, name := "Jo", birthday := { year := 1990, month := 5, day := 17 } }],
    enclosures :=
      [{ id := 3, environment := "savanna", open_to_visitors := true }] }

/-- The sample zookeeper. -/
def zkJo : Zookeeper :=
  { id := 2, name := "Jo", birthday := { year := 1990, month := 5, day := 17 } }

/-- The sample enclosure. -/
def encSavanna : Enclosure :=
  { id := 3, environment := "savanna", open_to_visitors := true }

/-- The sample animal Fred. -/
def animalFred : Animal :=
  { id := 1, name := "Fred", species := "giraffe",
    zookeeper_id := some 2, enclosure_id := some 3 }

/-! Helper lemmas shared by the claim theorems. -/

/-- A successful find? splits the list at the first satisfying element. -/
theorem find?_split {α : Type} (p : α → Bool) :
    ∀ (l : List α) (x : α), l.find? p = some x →
      ∃ l1 l2, l = l1 ++ x :: l2 ∧ ∀ y ∈ l1, p y = false := by
  intro l
  induction l with
  | nil => intro x h; simp [List.find?] at h
  | cons a l ih =>
      intro x h
      by_cases hp : p a
      · rw [List.find?_cons_of_pos l hp] at h
        obtain rfl : a = x := by injection h
        exact ⟨[], l, rfl, by simp⟩
      · rw [List.find?_cons_of_neg l hp] at h
        obtain ⟨l1, l2, hl, hl1⟩ := ih x h
        refine ⟨a :: l1, l2, by rw [hl]; rfl, ?_⟩
        intro y hy
        rcases List.mem_cons.mp hy with rfl | hy2
        · exact Bool.eq_false_iff.mpr hp
        · exact hl1 y hy2

/-- On a list whose key projections are pairwise distinct, find? by key
returns any member carrying the key. -/
theorem find?_first_of_mem {α : Type} (f : α → Int) (i : Int) :
    ∀ (l : List α), l.Pairwise (fun a b => f a ≠ f b) →
      ∀ x ∈ l, f x = i → l.find? (fun y => f y == i) = some x := by
  intro l
  induction l with
  | nil => intro _ x hx; simp at hx
  | cons a l ih =>
      intro hpw x hx hxi
      obtain ⟨hane, hpl⟩ := List.pairwise_cons.mp hpw
      rcases List.mem_cons.mp hx with rfl | hmem
      · exact List.find?_cons_of_pos l (by simp [hxi])
      · have hne : f a ≠ i := fun hc => (hane x hmem) (hc.trans hxi.symm)
        rw [List.find?_cons_of_neg l (by simp [hne])]
        exact ih hpl x hmem hxi

/-- Full characterization of find? by an integer key: result membership and
key match with a first-occurrence split, the none case, and uniqueness under
pairwise-distinct keys. -/
theorem find_by_key_spec {α : Type} (f : α → Int) (l : List α) (i : Int) :
    (∀ x, l.find? (fun y => f y == i) = some x →
        x ∈ l ∧ f x = i ∧ ∃ l1 l2, l = l1 ++ x :: l2 ∧ ∀ y ∈ l1, f y ≠ i) ∧
    (l.find? (fun y => f y == i) = none ↔ ∀ x ∈ l, f x ≠ i) ∧
    (l.Pairwise (fun a b => f a ≠ f b) →
      ∀ x ∈ l, f x = i → l.find? (fun y => f y == i) = some x) := by
  refine ⟨?_, ?_, fun hpw x hx hxi => find?_first_of_mem f i l hpw x hx hxi⟩
  · intro x h
    refine ⟨List.mem_of_find?_eq_some h, by simpa using List.find?_some h, ?_⟩
    obtain ⟨l1, l2, hl, hl1⟩ := find?_split (fun y => f y == i) l x h
    exact ⟨l1, l2, hl, fun y hy => by simpa using hl1 y hy⟩
  · rw [List.find?_eq_none]
    constructor
    · intro h x hx; simpa using h x hx
    · intro h x hx; simpa using h x hx

/-- Mapping with an Option-valued function that always succeeds gives the
plain map. -/
theorem optionMapList_eq_map {α β : Type} (f : α → Option β) (g : α → β)
    (hf : ∀ x, f x = some (g x)) :
    ∀ l : List α, optionMapList f l = some (l.map g) := by
  intro l
  induction l with
  | nil => rfl
  | cons x xs ih => simp [optionMapList, hf x, ih]

/-- With the animals field excluded, one unit of fuel dumps a zookeeper to
the nested form used inside AnimalSchema. -/
theorem dumpZookeeperFuel_excluded (n : Nat) (db : DB) (z : Zookeeper) :
    dumpZookeeperFuel (n + 1) db true z = some (dumpZookeeperNoAnimals z) := by
  simp [dumpZookeeperFuel, dumpZookeeperNoAnimals]

/-- With the animals field excluded, one unit of fuel dumps an enclosure to
the nested form used inside AnimalSchema. -/
theorem dumpEnclosureFuel_excluded (n : Nat) (db : DB) (e : Enclosure) :
    dumpEnclosureFuel (n + 1) db true e = some (dumpEnclosureNoAnimals e) := by
  simp [dumpEnclosureFuel, dumpEnclosureNoAnimals]

/-- Two units of fuel suffice to dump an animal, for any exclusion flags,
and the result agrees with the direct renderer. -/
theorem dumpAnimalFuel_eq (n : Nat) (db : DB) (exZookeeper exEnclosure : Bool)
    (a : Animal) :
    dumpAnimalFuel (n + 2) db exZookeeper exEnclosure a
      = some (dumpAnimal db exZookeeper exEnclosure a) := by
  cases exZookeeper <;> cases exEnclosure <;>
    cases hz : animalZookeeper db a <;> cases he : animalEnclosure db a <;>
      simp [dumpAnimalFuel, dumpAnimal, dumpNested, hz, he,
        dumpZookeeperFuel_excluded, dumpEnclosureFuel_excluded]

/-- Three units of fuel suffice to dump a full zookeeper, agreeing with the
direct renderer. -/
theorem dumpZookeeperFuel_full (n : Nat) (db : DB) (z : Zookeeper) :
    dumpZookeeperFuel (n + 3) db false z = some (dumpZookeeper db z) := by
  have hm := optionMapList_eq_map (dumpAnimalFuel (n + 2) db true false)
    (dumpAnimal db true false) (fun a => dumpAnimalFuel_eq n db true false a)
    (zookeeperAnimals db z)
  simp [dumpZookeeperFuel, dumpZookeeper, hm]

/-- Three units of fuel suffice to dump a full enclosure, agreeing with the
direct renderer. -/
theorem dumpEnclosureFuel_full (n : Nat) (db : DB) (e : Enclosure) :
    dumpEnclosureFuel (n + 3) db false e = some (dumpEnclosure db e) := by
  have hm := optionMapList_eq_map (dumpAnimalFuel (n + 2) db false true)
    (dumpAnimal db false true) (fun a => dumpAnimalFuel_eq n db false true a)
    (enclosureAnimals db e)
  simp [dumpEnclosureFuel, dumpEnclosure, hm]

/-! Claim theorems. -/

/-- C1: for every existing Animal, rendering it produces a mapping whose
keys are exactly id, name, species, zookeeper and enclosure, carrying the
stored id, name and species; when the zookeeper reference is present the
zookeeper key holds that Zookeeper rendered without its animals list, and
when the enclosure reference is present the enclosure key holds that
Enclosure rendered without its animals list. -/
theorem animal_render_spec (db : DB) (i : Int) (a : Animal)
    (h : animalQueryFirst db i = some a) :
    animal_by_id db i = { status := 200, body := dumpAnimal db false false a } ∧
    Value.keys (dumpAnimal db false false a)
      = ["id", "name", "species", "zookeeper", "enclosure"] ∧
    Value.lookup "id" (dumpAnimal db false false a) = some (Value.int a.id) ∧
    Value.lookup "name" (dumpAnimal db false false a) = some (Value.str a.name) ∧
    Value.lookup "species" (dumpAnimal db false false a)
      = some (Value.str a.species) ∧
    (∀ z, animalZookeeper db a = some z →
      Value.lookup "zookeeper" (dumpAnimal db false false a)
        = some (dumpZookeeperNoAnimals z) ∧
      Value.keys (dumpZookeeperNoAnimals z) = ["id", "name", "birthday"] ∧
      Value.lookup "animals" (dumpZookeeperNoAnimals z) = none) ∧
    (∀ e, animalEnclosure db a = some e →
      Value.lookup "enclosure" (dumpAnimal db false false a)
        = some (dumpEnclosureNoAnimals e) ∧
      Value.keys (dumpEnclosureNoAnimals e)
        = ["id", "environment", "open_to_visitors"] ∧
      Value.lookup "animals" (dumpEnclosureNoAnimals e) = none) := by
  refine ⟨?_, rfl, rfl, rfl, rfl, ?_, ?_⟩
  · simp [animal_by_id, h, schemaDump, make_response]
  · intro z hz
    refine ⟨?_, rfl, rfl⟩
    rw [show Value.lookup "zookeeper" (dumpAnimal db false false a)
          = some (dumpNested dumpZookeeperNoAnimals (animalZookeeper db a)) from rfl,
        hz]
    rfl
  · intro e he
    refine ⟨?_, rfl, rfl⟩
    rw [show Value.lookup "enclosure" (dumpAnimal db false false a)
          = some (dumpNested dumpEnclosureNoAnimals (animalEnclosure db a)) from rfl,
        he]
    rfl

/-- Witness for C1 on the sample store: the lookup hypothesis holds at id 1
and the rendered response follows. -/
theorem animal_render_spec_witness :
    animalQueryFirst dbZoo 1 = some animalFred ∧
    animal_by_id dbZoo 1
      = { status := 200, body := dumpAnimal dbZoo false false animalFred } :=
  ⟨rfl, (animal_render_spec dbZoo 1 animalFred rfl).1⟩

/-- C2: for every existing Zookeeper, rendering it produces a mapping with
keys id, name, birthday and animals, where birthday carries the ISO
formatting of the stored date and every animal in the animals list is
rendered without its zookeeper field. -/
theorem zookeeper_render_spec (db : DB) (i : Int) (z : Zookeeper)
    (h : zookeeperQueryFirst db i = some z) :
    zookeeper_by_id db i = { status := 200, body := dumpZookeeper db z } ∧
    Value.keys (dumpZookeeper db z) = ["id", "name", "birthday", "animals"] ∧
    Value.lookup "id" (dumpZookeeper db z) = some (Value.int z.id) ∧
    Value.lookup "name" (dumpZookeeper db z) = some (Value.str z.name) ∧
    Value.lookup "birthday" (dumpZookeeper db z)
      = some (Value.str (dateISO z.birthday)) ∧
    Value.lookup "animals" (dumpZookeeper db z)
      = some (Value.list ((zookeeperAnimals db z).map (dumpAnimal db true false))) ∧
    ∀ a ∈ zookeeperAnimals db z,
      Value.keys (dumpAnimal db true false a)
        = ["id", "name", "species", "enclosure"] ∧
      Value.lookup "zookeeper" (dumpAnimal db true false a) = none := by
  refine ⟨?_, rfl, rfl, rfl, rfl, rfl, ?_⟩
  · simp [zookeeper_by_id, h, schemaDump, make_response]
  · intro a _
    exact ⟨rfl, rfl⟩

/-- Witness for C2 on the sample store: the lookup hypothesis holds at id 2
and the rendered response follows. -/
theorem zookeeper_render_spec_witness :
    zookeeperQueryFirst dbZoo 2 = some zkJo ∧
    zookeeper_by_id dbZoo 2 = { status := 200, body := dumpZookeeper dbZoo zkJo } :=
  ⟨rfl, (zookeeper_render_spec dbZoo 2 zkJo rfl).1⟩

/-- C3: for every existing Enclosure, rendering it produces a mapping with
keys id, environment, open_to_visitors and animals, where every animal in
the animals list is rendered without its enclosure field. -/
theorem enclosure_render_spec (db : DB) (i : Int) (e : Enclosure)
    (h : enclosureQueryFirst db i = some e) :
    enclosure_by_id db i = { status := 200, body := dumpEnclosure db e } ∧
    Value.keys (dumpEnclosure db e)
      = ["id", "environment", "open_to_visitors", "animals"] ∧
    Value.lookup "id" (dumpEnclosure db e) = some (Value.int e.id) ∧
    Value.lookup "environment" (dumpEnclosure db e)
      = some (Value.str e.environment) ∧
    Value.lookup "open_to_visitors" (dumpEnclosure db e)
      = some (Value.bool e.open_to_visitors) ∧
    Value.lookup "animals" (dumpEnclosure db e)
      = some (Value.list ((enclosureAnimals db e).map (dumpAnimal db false true))) ∧
    ∀ a ∈ enclosureAnimals db e,
      Value.keys (dumpAnimal db false true a)
        = ["id", "name", "species", "zookeeper"] ∧
      Value.lookup "enclosure" (dumpAnimal db false true a) = none := by
  refine ⟨?_, rfl, rfl, rfl, rfl, rfl, ?_⟩
  · simp [enclosure_by_id, h, schemaDump, make_response]
  · intro a _
    exact ⟨rfl, rfl⟩

/-- Witness for C3 on the sample store: the lookup hypothesis holds at id 3
and the rendered response follows. -/
theorem enclosure_render_spec_witness :
    enclosureQueryFirst dbZoo 3 = some encSavanna ∧
    enclosure_by_id dbZoo 3
      = { status := 200, body := dumpEnclosure dbZoo encSavanna } :=
  ⟨rfl, (enclosure_render_spec dbZoo 3 encSavanna rfl).1⟩

/-- C4: for every id matching no stored record, each of the three lookup
endpoints returns status 200 with an empty mapping as body, not an error
signal. -/
theorem missing_id_renders_empty (db : DB) (i : Int)
    (ha : animalQueryFirst db i = none)
    (hz : zookeeperQueryFirst db i = none)
    (he : enclosureQueryFirst db i = none) :
    animal_by_id db i = { status := 200, body := Value.obj [] } ∧
    zookeeper_by_id db i = { status := 200, body := Value.obj [] } ∧
    enclosure_by_id db i = { status := 200, body := Value.obj [] } := by
  refine ⟨?_, ?_, ?_⟩
  · simp [animal_by_id, ha, schemaDump, make_response]
  · simp [zookeeper_by_id, hz, schemaDump, make_response]
  · simp [enclosure_by_id, he, schemaDump, make_response]

/-- Witness for C4 on the sample store at the non-existent id 999. -/
theorem missing_id_renders_empty_witness :
    animalQueryFirst dbZoo 999 = none ∧
    zookeeperQueryFirst dbZoo 999 = none ∧
    enclosureQueryFirst dbZoo 999 = none ∧
    animal_by_id dbZoo 999 = { status := 200, body := Value.obj [] } :=
  ⟨rfl, rfl, rfl, (missing_id_renders_empty dbZoo 999 rfl rfl rfl).1⟩

/-- C5: rendering terminates with recursion bounded by construction: since
each nested schema excludes the inverse relationship pointing back to the
originating entity, the mutually referencing fuel-indexed renderers succeed
with any fuel of at least 3 and agree with the direct (total) renderers, so
no render re-enters the originating entity and no render cycle of depth
greater than one occurs. -/
theorem render_recursion_bounded (db : DB) (exZookeeper exEnclosure : Bool)
    (a : Animal) (z : Zookeeper) (e : Enclosure) (n : Nat) (h : 3 ≤ n) :
    dumpAnimalFuel n db exZookeeper exEnclosure a
      = some (dumpAnimal db exZookeeper exEnclosure a) ∧
    dumpZookeeperFuel n db false z = some (dumpZookeeper db z) ∧
    dumpEnclosureFuel n db false e = some (dumpEnclosure db e) := by
  obtain ⟨k, hk⟩ := Nat.le.dest h
  rw [← hk, Nat.add_comm 3 k]
  exact ⟨dumpAnimalFuel_eq (k + 1) db exZookeeper exEnclosure a,
         dumpZookeeperFuel_full k db z, dumpEnclosureFuel_full k db e⟩

/-- Witness for C5: fuel 3 already renders the sample animal. -/
theorem render_recursion_bounded_witness :
    3 ≤ 3 ∧
    dumpAnimalFuel 3 dbZoo false false animalFred
      = some (dumpAnimal dbZoo false false animalFred) :=
  ⟨by decide,
   (render_recursion_bounded dbZoo false false animalFred zkJo encSavanna 3
      (by decide)).1⟩

/-- C6: inside a Zookeeper render each listed animal, though stripped of
its zookeeper field, still carries its nested enclosure rendered without an
animals list; symmetrically inside an Enclosure render each listed animal
still carries its nested zookeeper rendered without an animals list, so
nesting reaches a third level. -/
theorem third_level_nesting (db : DB) (z : Zookeeper) (e : Enclosure)
    (a b : Animal)
    (ha : a ∈ zookeeperAnimals db z) (hb : b ∈ enclosureAnimals db e) :
    dumpAnimal db true false a
      ∈ (zookeeperAnimals db z).map (dumpAnimal db true false) ∧
    Value.lookup "zookeeper" (dumpAnimal db true false a) = none ∧
    Value.lookup "enclosure" (dumpAnimal db true false a)
      = some (dumpNested dumpEnclosureNoAnimals (animalEnclosure db a)) ∧
    (∀ e2, animalEnclosure db a = some e2 →
      Value.lookup "enclosure" (dumpAnimal db true false a)
        = some (dumpEnclosureNoAnimals e2) ∧
      Value.lookup "animals" (dumpEnclosureNoAnimals e2) = none) ∧
    dumpAnimal db false true b
      ∈ (enclosureAnimals db e).map (dumpAnimal db false true) ∧
    Value.lookup "enclosure" (dumpAnimal db false true b) = none ∧
    Value.lookup "zookeeper" (dumpAnimal db false true b)
      = some (dumpNested dumpZookeeperNoAnimals (animalZookeeper db b)) ∧
    (∀ z2, animalZookeeper db b = some z2 →
      Value.lookup "zookeeper" (dumpAnimal db false true b)
        = some (dumpZookeeperNoAnimals z2) ∧
      Value.lookup "animals" (dumpZookeeperNoAnimals z2) = none) := by
  refine ⟨List.mem_map_of_mem _ ha, rfl, rfl, ?_,
          List.mem_map_of_mem _ hb, rfl, rfl, ?_⟩
  · intro e2 he2
    refine ⟨?_, rfl⟩
    rw [show Value.lookup "enclosure" (dumpAnimal db true false a)
          = some (dumpNested dumpEnclosureNoAnimals (animalEnclosure db a)) from rfl,
        he2]
    rfl
  · intro z2 hz2
    refine ⟨?_, rfl⟩
    rw [show Value.lookup "zookeeper" (dumpAnimal db false true b)
          = some (dumpNested dumpZookeeperNoAnimals (animalZookeeper db b)) from rfl,
        hz2]
    rfl

/-- Witness for C6 on the sample store: Fred is in both reverse
collections, and his entry in Jo's render still names the enclosure. -/
theorem third_level_nesting_witness :
    animalFred ∈ zookeeperAnimals dbZoo zkJo ∧
    animalFred ∈ enclosureAnimals dbZoo encSavanna ∧
    Value.lookup "enclosure" (dumpAnimal dbZoo true false animalFred)
      = some (dumpNested dumpEnclosureNoAnimals (animalEnclosure dbZoo animalFred)) :=
  ⟨by decide, by decide,
   (third_level_nesting dbZoo zkJo encSavanna animalFred animalFred
      (by decide) (by decide)).2.2.1⟩

/-- C7: for every entity kind entity lookup returns the first stored record
whose id equals the identifier (or none when there is no match, with no
error raised), and under the primary-key hypothesis of pairwise distinct
ids the matched record is the unique one carrying that id. -/
theorem entity_lookup_spec (db : DB) (i : Int)
    (hpa : db.animals.Pairwise (fun x y => x.id ≠ y.id))
    (hpz : db.zookeepers.Pairwise (fun x y => x.id ≠ y.id))
    (hpe : db.enclosures.Pairwise (fun x y => x.id ≠ y.id)) :
    (∀ x, animalQueryFirst db i = some x →
        x ∈ db.animals ∧ x.id = i ∧
        ∃ l1 l2, db.animals = l1 ++ x :: l2 ∧ ∀ y ∈ l1, y.id ≠ i) ∧
    (animalQueryFirst db i = none ↔ ∀ x ∈ db.animals, x.id ≠ i) ∧
    (∀ x ∈ db.animals, x.id = i → animalQueryFirst db i = some x) ∧
    (∀ x, zookeeperQueryFirst db i = some x →
        x ∈ db.zookeepers ∧ x.id = i ∧
        ∃ l1 l2, db.zookeepers = l1 ++ x :: l2 ∧ ∀ y ∈ l1, y.id ≠ i) ∧
    (zookeeperQueryFirst db i = none ↔ ∀ x ∈ db.zookeepers, x.id ≠ i) ∧
    (∀ x ∈ db.zookeepers, x.id = i → zookeeperQueryFirst db i = some x) ∧
    (∀ x, enclosureQueryFirst db i = some x →
        x ∈ db.enclosures ∧ x.id = i ∧
        ∃ l1 l2, db.enclosures = l1 ++ x :: l2 ∧ ∀ y ∈ l1, y.id ≠ i) ∧
    (enclosureQueryFirst db i = none ↔ ∀ x ∈ db.enclosures, x.id ≠ i) ∧
    (∀ x ∈ db.enclosures, x.id = i → enclosureQueryFirst db i = some x) := by
  obtain ⟨ha1, ha2, ha3⟩ := find_by_key_spec Animal.id db.animals i
  obtain ⟨hz1, hz2, hz3⟩ := find_by_key_spec Zookeeper.id db.zookeepers i
  obtain ⟨he1, he2, he3⟩ := find_by_key_spec Enclosure.id db.enclosures i
  exact ⟨ha1, ha2, ha3 hpa, hz1, hz2, hz3 hpz, he1, he2, he3 hpe⟩

/-- Witness for C7 on the sample store, whose ids are pairwise distinct:
looking up id 1 yields Fred. -/
theorem entity_lookup_spec_witness :
    dbZoo.animals.Pairwise (fun x y => x.id ≠ y.id) ∧
    animalQueryFirst dbZoo 1 = some animalFred :=
  ⟨by decide,
   (entity_lookup_spec dbZoo 1 (by decide) (by decide) (by decide)).2.2.1
     animalFred (by decide) rfl⟩

/-- C8: the id field of every schema is dump-only: id is never among the
input-settable field names of any of the three schemas, while every
rendered entity carries its stored identifier under the id key. -/
theorem id_dump_only_spec :
    ("id" ∉ loadableFields animalSchemaFields ∧
     "id" ∉ loadableFields zookeeperSchemaFields ∧
     "id" ∉ loadableFields enclosureSchemaFields) ∧
    (∀ (db : DB) (exZookeeper exEnclosure : Bool) (a : Animal),
      Value.lookup "id" (dumpAnimal db exZookeeper exEnclosure a)
        = some (Value.int a.id)) ∧
    (∀ (db : DB) (z : Zookeeper),
      Value.lookup "id" (dumpZookeeper db z) = some (Value.int z.id)) ∧
    (∀ (db : DB) (e : Enclosure),
      Value.lookup "id" (dumpEnclosure db e) = some (Value.int e.id)) ∧
    (∀ z : Zookeeper,
      Value.lookup "id" (dumpZookeeperNoAnimals z) = some (Value.int z.id)) ∧
    (∀ e : Enclosure,
      Value.lookup "id" (dumpEnclosureNoAnimals e) = some (Value.int e.id)) :=
  ⟨⟨by decide, by decide, by decide⟩,
   fun _ _ _ _ => rfl, fun _ _ => rfl, fun _ _ => rfl, fun _ => rfl, fun _ => rfl⟩

/-- C9: a request whose identifier segment is not a nonempty digit string
matches no route (the framework rejects it with no handler run), and
whenever a lookup route does produce a response its handler was invoked
with the integer parsed from the segment. -/
theorem routing_rejects_non_integer (db : DB) (seg : String) :
    (parseIntSegment seg = none →
        dispatchSegments db ["", "animals", seg] = none ∧
        dispatchSegments db ["", "zookeepers", seg] = none ∧
        dispatchSegments db ["", "enclosures", seg] = none) ∧
    (∀ r, dispatchSegments db ["", "animals", seg] = some r →
        ∃ n, parseIntSegment seg = some n ∧ r = animal_by_id db (Int.ofNat n)) ∧
    (∀ r, dispatchSegments db ["", "zookeepers", seg] = some r →
        ∃ n, parseIntSegment seg = some n ∧ r = zookeeper_by_id db (Int.ofNat n)) ∧
    (∀ r, dispatchSegments db ["", "enclosures", seg] = some r →
        ∃ n, parseIntSegment seg = some n ∧ r = enclosure_by_id db (Int.ofNat n)) ∧
    (∀ path, dispatch db path = dispatchSegments db (pathSegments path)) := by
  refine ⟨?_, ?_, ?_, ?_, fun _ => rfl⟩
  · intro h
    refine ⟨?_, ?_, ?_⟩ <;>
      simp [dispatchSegments, h]
  · intro r hr
    rw [show dispatchSegments db ["", "animals", seg]
          = (parseIntSegment seg).map (fun n => animal_by_id db (Int.ofNat n)) from rfl]
      at hr
    cases hp : parseIntSegment seg with
    | none => rw [hp] at hr; simp at hr
    | some n =>
        rw [hp] at hr
        exact ⟨n, rfl, by simpa using hr.symm⟩
  · intro r hr
    rw [show dispatchSegments db ["", "zookeepers", seg]
          = (parseIntSegment seg).map (fun n => zookeeper_by_id db (Int.ofNat n)) from rfl]
      at hr
    cases hp : parseIntSegment seg with
    | none => rw [hp] at hr; simp at hr
    | some n =>
        rw [hp] at hr
        exact ⟨n, rfl, by simpa using hr.symm⟩
  · intro r hr
    rw [show dispatchSegments db ["", "enclosures", seg]
          = (parseIntSegment seg).map (fun n => enclosure_by_id db (Int.ofNat n)) from rfl]
      at hr
    cases hp : parseIntSegment seg with
    | none => rw [hp] at hr; simp at hr
    | some n =>
        rw [hp] at hr
        exact ⟨n, rfl, by simpa using hr.symm⟩

/-- Witness for C9: the non-integer segment abc reaches no handler on the
sample store. -/
theorem routing_rejects_non_integer_witness :
    parseIntSegment "abc" = none ∧
    dispatchSegments dbZoo ["", "animals", "abc"] = none :=
  ⟨rfl, ((routing_rejects_non_integer dbZoo "abc").1 rfl).1⟩

/-- C10: a request to the root path returns the static greeting body with
status 200, independent of the stored data. -/
theorem index_static_greeting (db : DB) :
    dispatch db "/"
      = some { status := 200, body := Value.str "<h1>Zoo app</h1>" } ∧
    dispatch db "/" = some (make_response index) :=
  ⟨rfl, rfl⟩

end ZooApp
